import Mathlib

/-!
Verification of the task-scheduling engine of afk2-auto-script.

The definitions below are a shallow embedding of the Python sources
`src/models/task.py`, `src/tasks/task_manager.py`, `src/tasks/task_scheduler.py`
and `src/tasks/task_executor.py`.  Wall-clock instants are modelled as `Nat`
ticks, `uuid.uuid4()` is modelled by a fresh counter, and Python exceptions are
modelled with `Except PyError`.  Python dicts are modelled as association lists
in insertion order (`dictSet` mirrors `d[k] = v`).
-/

namespace AFK2

/-- `TaskStatus` exactly as declared in `src/models/task.py`.
Note that the enum has no `QUEUED` member; `TaskStatus.attr` below models
attribute lookup on the enum class. -/
inductive TaskStatus where
  | pending
  | running
  | paused
  | completed
  | failed
  | cancelled
  | retrying
  | skipped
deriving DecidableEq, Repr

/-- Attribute lookup `TaskStatus.<NAME>` on the enum class.  A name that is not
a member yields `none`, which the sources surface as an `AttributeError`. -/
def TaskStatus.attr : String → Option TaskStatus
  | "PENDING" => some .pending
  | "RUNNING" => some .running
  | "PAUSED" => some .paused
  | "COMPLETED" => some .completed
  | "FAILED" => some .failed
  | "CANCELLED" => some .cancelled
  | "RETRYING" => some .retrying
  | "SKIPPED" => some .skipped
  | _ => none

/-- `TaskPriority` from `src/models/task.py`. -/
inductive TaskPriority where
  | low
  | normal
  | high
  | urgent
deriving DecidableEq, Repr

/-- The numeric enum values: LOW = 0, NORMAL = 1, HIGH = 2, URGENT = 3. -/
def TaskPriority.value : TaskPriority → Nat
  | .low => 0
  | .normal => 1
  | .high => 2
  | .urgent => 3

/-- `TaskType` from `src/models/task.py`. -/
inductive TaskType where
  | wake_up_game
  | daily_task
  | battle
  | collect_reward
  | upgrade
  | custom
deriving DecidableEq, Repr

/-- The string enum values of `TaskType`. -/
def TaskType.value : TaskType → String
  | .wake_up_game => "wake_up_game"
  | .daily_task => "daily_task"
  | .battle => "battle"
  | .collect_reward => "collect_reward"
  | .upgrade => "upgrade"
  | .custom => "custom"

/-- The members of `TaskType`, in declaration order (the iteration order of
`for t in TaskType` in Python). -/
def TaskType.values : List TaskType :=
  [.wake_up_game, .daily_task, .battle, .collect_reward, .upgrade, .custom]

/-- Python values returned by handlers (the sources only ever produce bools,
strings or None as task results). -/
inductive PyVal where
  | pyNone
  | pyBool (b : Bool)
  | pyStr (s : String)
deriving DecidableEq, Repr

/-- The exceptions raised by the engine, from `src/utils/exceptions.py` plus
Python's built-in `AttributeError`.  There is no dedicated no-handler error
class in the sources. -/
inductive PyError where
  | attributeError (name : String)
  | taskError (msg : String)
  | taskNotFoundError (task_id : String)
  | taskExecutionError (msg : String)
  | taskTimeoutError (task_name : String) (timeout : Nat)
deriving DecidableEq, Repr

/-- `str(e)` on a modelled exception. -/
def PyError.message : PyError → String
  | .attributeError name => name
  | .taskError msg => msg
  | .taskNotFoundError task_id => "Task not found: " ++ task_id
  | .taskExecutionError msg => msg
  | .taskTimeoutError task_name timeout =>
      "Task " ++ task_name ++ " timeout " ++ toString timeout

/-- The `metadata` dict entries that the engine itself reads or writes
(`TaskManager.create_task` populates the first four; `wake_game` may be merged
in from the caller-supplied metadata argument and is read back with
`metadata.get` and default `True` in the executor). -/
structure Metadata where
  task_type : String
  params : List (String × String)
  scheduled_time : Option Nat
  timeout : Option Nat
  wake_game : Option Bool
deriving DecidableEq, Repr

/-- `TaskInfo` from `src/models/task.py`, restricted to the fields the
scheduling engine reads or writes (timestamps, progress and the parent/child
links are never consulted by the manager, scheduler or executor paths under
verification). -/
structure TaskInfo where
  task_id : String
  task_name : String
  task_type : TaskType
  status : TaskStatus
  priority : TaskPriority
  retry_count : Nat
  max_retries : Nat
  error_message : Option String
  result : Option PyVal
  metadata : Metadata
  dependencies : List String
deriving DecidableEq, Repr

/-- `TaskResult` from `src/tasks/task_manager.py` (timestamps abstracted). -/
structure TaskResult where
  task_id : String
  status : TaskStatus
  result : Option PyVal
  error : Option String
  retry_count : Nat
deriving DecidableEq, Repr

instance {ε α : Type} [DecidableEq ε] [DecidableEq α] : DecidableEq (Except ε α) :=
  fun x y =>
    match x, y with
    | .ok a, .ok b =>
        match decEq a b with
        | isTrue h => isTrue (h ▸ rfl)
        | isFalse h => isFalse (fun hh => h (Except.ok.inj hh))
    | .error a, .error b =>
        match decEq a b with
        | isTrue h => isTrue (h ▸ rfl)
        | isFalse h => isFalse (fun hh => h (Except.error.inj hh))
    | .ok _, .error _ => isFalse (fun hh => Except.noConfusion hh)
    | .error _, .ok _ => isFalse (fun hh => Except.noConfusion hh)

/-- A registered handler: an abstract execution unit with a running time and an
outcome (a value, or a raised exception). -/
structure Handler where
  duration : Nat
  outcome : Except PyError PyVal
deriving DecidableEq, Repr

/-- Per-type execution statistics kept by the executor (`avg_duration` is
derived from the two stored sums in the source and is omitted). -/
structure ExecStats where
  total : Nat
  success : Nat
  failed : Nat
  total_duration : Nat
deriving DecidableEq, Repr

/-- `d[k] = v` on a Python dict modelled as an association list: replace the
binding in place if the key is present, else append. -/
def dictSet {α : Type} : List (String × α) → String → α → List (String × α)
  | [], k, v => [(k, v)]
  | p :: rest, k, v =>
      if p.1 == k then (k, v) :: rest else p :: dictSet rest k v

/-- The task registry (`TaskManager` in `src/tasks/task_manager.py`).
`uuid_seed` models the `uuid.uuid4()` supply; `running_tasks` mirrors
`_running_tasks`, which the sources only ever read. -/
structure TaskManager where
  tasks : List (String × TaskInfo)
  task_results : List (String × TaskResult)
  task_queue : List String
  running_tasks : List String
  executors : List (String × Handler)
  uuid_seed : Nat
deriving Repr

/-- `TaskManager.get_task`. -/
def TaskManager.get_task (m : TaskManager) (task_id : String) : Option TaskInfo :=
  m.tasks.lookup task_id

/-- `TaskManager.get_executor` (string-keyed registry of executor callables). -/
def TaskManager.get_executor (m : TaskManager) (task_type : String) : Option Handler :=
  m.executors.lookup task_type

/-- `TaskManager.list_tasks` (the group filter, unused by the scheduler, is
omitted). -/
def TaskManager.list_tasks (m : TaskManager) (status : Option TaskStatus) : List TaskInfo :=
  let tasks := m.tasks.map (·.2)
  match status with
  | some st => tasks.filter (fun t => t.status == st)
  | none => tasks

/-- `TaskManager._add_to_queue`: insert by priority band into the internal
`_task_queue` id list — HIGH at the front, LOW at the back, everything else
(including URGENT, which matches none of the two tests) after the HIGH block.
The sources index `self._tasks[task_id]` unconditionally; both call sites
guarantee the id is present, so a missing id is modelled as a no-op. -/
def TaskManager.add_to_queue (m : TaskManager) (task_id : String) : TaskManager :=
  if m.task_queue.contains task_id then m
  else
    match m.tasks.lookup task_id with
    | none => m
    | some task =>
        if task.priority = .high then
          { m with task_queue := task_id :: m.task_queue }
        else if task.priority = .low then
          { m with task_queue := m.task_queue ++ [task_id] }
        else
          let high_count :=
            (m.task_queue.filter (fun tid =>
              match m.tasks.lookup tid with
              | some t => t.priority == .high
              | none => false)).length
          { m with task_queue :=
              m.task_queue.take high_count ++ [task_id] ++ m.task_queue.drop high_count }

/-- `TaskManager.create_task`.  The string `task_type` is matched against the
`TaskType` enum values with `next(..., TaskType.CUSTOM)`; the original string
is preserved in `metadata` for the executor.  The function is total: no input
raises.  `wake_game` models the only metadata key merged from the caller-side
metadata argument that the engine later reads. -/
def TaskManager.create_task (m : TaskManager) (name : String) (task_type : String)
    (params : List (String × String)) (priority : TaskPriority)
    (scheduled_time : Option Nat) (timeout : Option Nat) (max_retries : Nat)
    (dependencies : List String) (wake_game : Option Bool) :
    TaskManager × String :=
  let task_type_enum := (TaskType.values.find? (fun t => t.value == task_type)).getD .custom
  let task_id := "task-" ++ toString m.uuid_seed
  let task : TaskInfo :=
    { task_id := task_id
      task_name := name
      task_type := task_type_enum
      status := .pending
      priority := priority
      retry_count := 0
      max_retries := max_retries
      error_message := none
      result := none
      metadata :=
        { task_type := task_type
          params := params
          scheduled_time := scheduled_time
          timeout := timeout
          wake_game := wake_game }
      dependencies := dependencies }
  let tr : TaskResult :=
    { task_id := task_id, status := .pending, result := none, error := none,
      retry_count := 0 }
  let m := { m with
    tasks := dictSet m.tasks task_id task
    task_results := dictSet m.task_results task_id tr
    uuid_seed := m.uuid_seed + 1 }
  (m.add_to_queue task_id, task_id)

/-- `TaskManager.update_task_status`: raises `TaskNotFoundError` for an unknown
id, otherwise rewrites the task status and the parallel result record
(listener callbacks have no effect on the registry state and are omitted). -/
def TaskManager.update_task_status (m : TaskManager) (task_id : String)
    (status : TaskStatus) (result : Option PyVal) (error : Option String) :
    TaskManager × Except PyError Unit :=
  match m.tasks.lookup task_id with
  | none => (m, .error (.taskNotFoundError task_id))
  | some task =>
      let m := { m with tasks := dictSet m.tasks task_id { task with status := status } }
      let m :=
        match m.task_results.lookup task_id with
        | none => m
        | some tr =>
            let tr := { tr with status := status, result := result, error := error }
            { m with task_results := dictSet m.task_results task_id tr }
      (m, .ok ())

/-- `TaskManager.retry_task`: raises for an unknown id; returns `False` when
the status is not FAILED or the retry budget is exhausted; otherwise bumps
`retry_count`, resets the status to PENDING and re-inserts into the internal
queue. -/
def TaskManager.retry_task (m : TaskManager) (task_id : String) :
    TaskManager × Except PyError Bool :=
  match m.tasks.lookup task_id with
  | none => (m, .error (.taskNotFoundError task_id))
  | some task =>
      if task.status ≠ .failed then (m, .ok false)
      else if task.retry_count ≥ task.max_retries then (m, .ok false)
      else
        let task := { task with retry_count := task.retry_count + 1, status := .pending }
        let m := { m with tasks := dictSet m.tasks task_id task }
        (m.add_to_queue task_id, .ok true)

/-- `len([t for t in tasks if t.status == TaskStatus.<attrName>])`: the
comprehension condition — and with it the enum attribute — is evaluated once
per element, so the `AttributeError` for a name that is not a member fires
only when the task list is non-empty; over an empty list the comprehension
yields `[]` and the count is 0 without the attribute ever being touched. -/
def statusAttrCount : List (String × TaskInfo) → String → Except PyError Nat
  | [], _ => .ok 0
  | p :: rest, attrName =>
      match TaskStatus.attr attrName with
      | none => .error (.attributeError attrName)
      | some st => do
          let n ← statusAttrCount rest attrName
          .ok ((if p.2.status == st then 1 else 0) + n)

/-- `TaskManager.get_statistics`: builds the stats dict entry by entry.  The
`queued` comprehension compares against `TaskStatus.QUEUED`, which is not a
member of the enum, so whenever the registry holds at least one task the
construction raises `AttributeError` before any dict is returned; only the
empty registry completes (with every count 0, and with no entries at all for
the RETRYING, PAUSED and SKIPPED statuses). -/
def TaskManager.get_statistics (m : TaskManager) :
    Except PyError (List (String × Nat)) := do
  let total := m.tasks.length
  let pending ← statusAttrCount m.tasks "PENDING"
  let queued ← statusAttrCount m.tasks "QUEUED"
  let running ← statusAttrCount m.tasks "RUNNING"
  let completed ← statusAttrCount m.tasks "COMPLETED"
  let failed ← statusAttrCount m.tasks "FAILED"
  let cancelled ← statusAttrCount m.tasks "CANCELLED"
  .ok [("total", total), ("pending", pending), ("queued", queued),
       ("running", running), ("completed", completed), ("failed", failed),
       ("cancelled", cancelled), ("queue_length", m.task_queue.length),
       ("running_threads", m.running_tasks.length)]

/-- The task executor (`TaskExecutor` in `src/tasks/task_executor.py`).
`game_controller` is the optional external controller collaborator;
`ensure_game` abstracts the outcome of `_ensure_game_running`, which only
talks to that external collaborator. -/
structure TaskExecutor where
  executors : List (String × Handler)
  execution_stats : List (String × ExecStats)
  game_controller : Option Unit
  ensure_game : Except PyError Unit

/-- `TaskExecutor.register_executor`: later registration for the same type tag
replaces the former. -/
def TaskExecutor.register_executor (ex : TaskExecutor) (task_type : String)
    (h : Handler) : TaskExecutor :=
  { ex with executors := dictSet ex.executors task_type h }

/-- `_register_builtin_executors`: wake_game and system share one handler,
daily_idle_reward gets its own. -/
def TaskExecutor.register_builtin_executors (ex : TaskExecutor)
    (wake daily : Handler) : TaskExecutor :=
  ((ex.register_executor "wake_game" wake).register_executor "system"
      wake).register_executor "daily_idle_reward" daily

/-- `_update_stats`: bump total, the success or failure counter, and the
cumulative duration for one task type (`avg_duration` is the stored quotient
of the two sums and carries no extra information). -/
def TaskExecutor.update_stats (ex : TaskExecutor) (task_type : String)
    (success : Bool) (duration : Nat) : TaskExecutor :=
  let st := (ex.execution_stats.lookup task_type).getD
    { total := 0, success := 0, failed := 0, total_duration := 0 }
  let st := { st with
    total := st.total + 1
    success := if success then st.success + 1 else st.success
    failed := if success then st.failed else st.failed + 1
    total_duration := st.total_duration + duration }
  { ex with execution_stats := dictSet ex.execution_stats task_type st }

/-- `_execute_with_timeout`: the handler runs on a daemon thread which is
joined for `timeout` seconds; if the thread is still alive the executor raises
a generic `TaskExecutionError` — the dedicated `TaskTimeoutError` class exists
in `src/utils/exceptions.py` but is never raised. -/
def TaskExecutor.execute_with_timeout (h : Handler) (timeout : Nat) :
    Except PyError PyVal :=
  if timeout < h.duration then
    .error (.taskExecutionError ("Task timeout after " ++ toString timeout ++ " seconds"))
  else h.outcome

/-- The wake-up guard at the top of `execute`: system tasks and the wake task
itself skip it; otherwise the metadata key wake_game, defaulting to True,
decides. -/
def shouldWake (task_type : String) (md : Metadata) : Bool :=
  !(task_type == "system" || task_type == "wake_game") && md.wake_game.getD true

/-- Handler resolution in `execute`: the lookup key is the original task_type
string preserved in the metadata, not the `TaskType` enum member. -/
def TaskExecutor.resolve (ex : TaskExecutor) (t : TaskInfo) : Option Handler :=
  ex.executors.lookup t.metadata.task_type

/-- The tail of `execute` once a handler is resolved: run it (under the
timeout when one is configured), record statistics, and wrap any raised error
as `TaskExecutionError`.  The post-success return-to-home block is wrapped in
its own try/except and never changes the outcome. -/
def TaskExecutor.run_handler (ex : TaskExecutor) (task_type : String)
    (handler : Handler) (timeout : Option Nat) : TaskExecutor × Except PyError PyVal :=
  let outcome :=
    match timeout with
    | some t => TaskExecutor.execute_with_timeout handler t
    | none => handler.outcome
  let elapsed :=
    match timeout with
    | some t => min handler.duration t
    | none => handler.duration
  match outcome with
  | .ok v => (ex.update_stats task_type true elapsed, .ok v)
  | .error e =>
      (ex.update_stats task_type false elapsed,
       .error (.taskExecutionError ("Task execution failed: " ++ e.message)))

/-- `TaskExecutor.execute`: resolve the handler by the metadata task_type
string; with no handler registered, raise `TaskExecutionError` (there is no
dedicated no-handler error class); otherwise optionally wake the game, then
run the handler. -/
def TaskExecutor.execute (ex : TaskExecutor) (t : TaskInfo) :
    TaskExecutor × Except PyError PyVal :=
  let task_type := t.metadata.task_type
  match ex.resolve t with
  | none =>
      (ex.update_stats task_type false 0,
       .error (.taskExecutionError
         ("Task execution failed: No executor for task type: " ++ task_type)))
  | some handler =>
      if shouldWake task_type t.metadata then
        match ex.ensure_game with
        | .error e =>
            (ex.update_stats task_type false 0,
             .error (.taskExecutionError ("Task execution failed: " ++ e.message)))
        | .ok _ => ex.run_handler task_type handler t.metadata.timeout
      else ex.run_handler task_type handler t.metadata.timeout

/-- An entry of the dispatcher heap: the tuple
`(priority_value, enqueue instant, task)` pushed by `_enqueue_task`, compared
lexicographically by the first two components. -/
structure QueueEntry where
  pv : Nat
  ts : Nat
  task : TaskInfo
deriving DecidableEq, Repr

/-- A recurring job record kept in `_cron_jobs`. -/
structure CronJob where
  name : String
  task_type : String
  interval : Nat
  params : List (String × String)
  next_run : Nat
  enabled : Bool
deriving DecidableEq, Repr

/-- The scheduler (`TaskScheduler` in `src/tasks/task_scheduler.py`).  `clock`
models `time.time()`, strictly increasing at every enqueue, which also serves
as the enqueue timestamp of heap entries. -/
structure TaskScheduler where
  task_manager : TaskManager
  task_executor : Option TaskExecutor
  priority_queue : List QueueEntry
  clock : Nat
  scheduled_tasks : List (String × Nat)
  cron_jobs : List (String × CronJob)

/-- The heap key computed in `_enqueue_task`: a dict with keys HIGH, NORMAL
and LOW and `dict.get` default 1.  URGENT is not in the dict, so it falls to
the default and is keyed like NORMAL. -/
def priority_value (p : TaskPriority) : Nat :=
  match p with
  | .high => 0
  | .normal => 1
  | .low => 2
  | .urgent => 1

/-- `_enqueue_task`: push `(priority_value, time.time(), task)` onto the heap,
then update the task status to `TaskStatus.QUEUED`.  The enum has no QUEUED
member, so evaluating that attribute raises AttributeError after the push and
the status update never happens. -/
def TaskScheduler.enqueue_task (s : TaskScheduler) (task : TaskInfo) :
    TaskScheduler × Except PyError Unit :=
  let pv := priority_value task.priority
  let s := { s with
    priority_queue := s.priority_queue ++ [QueueEntry.mk pv s.clock task]
    clock := s.clock + 1 }
  match TaskStatus.attr "QUEUED" with
  | none => (s, .error (.attributeError "QUEUED"))
  | some st =>
      let (m, r) := s.task_manager.update_task_status task.task_id st none none
      ({ s with task_manager := m }, r)

/-- `schedule_task`: raises `TaskError` for an unknown id; with a scheduled
time, records it in `_scheduled_tasks`; without one, enqueues immediately —
with no dependency check on either path. -/
def TaskScheduler.schedule_task (s : TaskScheduler) (task_id : String)
    (scheduled_time : Option Nat) : TaskScheduler × Except PyError Unit :=
  match s.task_manager.get_task task_id with
  | none => (s, .error (.taskError ("Task " ++ task_id ++ " not found")))
  | some task =>
      match scheduled_time with
      | some st => ({ s with scheduled_tasks := dictSet s.scheduled_tasks task_id st }, .ok ())
      | none => s.enqueue_task task

/-- `schedule_recurring_task`: record a new enabled job; `next_run` defaults
to the current instant. -/
def TaskScheduler.schedule_recurring_task (s : TaskScheduler) (name task_type : String)
    (interval : Nat) (params : List (String × String)) (start_time : Option Nat)
    (now : Nat) : TaskScheduler × String :=
  let job_id := "recurring_" ++ name ++ "_" ++ toString now
  let job : CronJob :=
    { name := name, task_type := task_type, interval := interval,
      params := params, next_run := start_time.getD now, enabled := true }
  ({ s with cron_jobs := dictSet s.cron_jobs job_id job }, job_id)

/-- The loop body of `_check_scheduled_tasks` over the due ids: each found task
is enqueued and then removed from `_scheduled_tasks`; the AttributeError
raised inside `_enqueue_task` propagates, so the removal and the remaining due
ids are never processed. -/
def check_scheduled_go (s : TaskScheduler) :
    List String → TaskScheduler × Except PyError Unit
  | [] => (s, .ok ())
  | task_id :: rest =>
      match s.task_manager.get_task task_id with
      | none => check_scheduled_go s rest
      | some task =>
          let (s, r) := s.enqueue_task task
          match r with
          | .error e => (s, .error e)
          | .ok _ =>
              let s := { s with
                scheduled_tasks := s.scheduled_tasks.filter (fun p => p.1 != task_id) }
              check_scheduled_go s rest

/-- `_check_scheduled_tasks`: collect the ids whose scheduled instant has
passed, then enqueue them one by one — without any dependency check. -/
def TaskScheduler.check_scheduled_tasks (s : TaskScheduler) (now : Nat) :
    TaskScheduler × Except PyError Unit :=
  let due := (s.scheduled_tasks.filter (fun p => p.2 ≤ now)).map (·.1)
  check_scheduled_go s due

/-- The inner dependency test of `_check_task_dependencies`: every dependency
id must resolve to a task whose status is COMPLETED. -/
def dep_all_completed (m : TaskManager) (deps : List String) : Bool :=
  deps.all (fun dep_id =>
    match m.get_task dep_id with
    | some dep_task => dep_task.status == .completed
    | none => false)

/-- The loop body of `_check_task_dependencies` over the PENDING snapshot:
tasks with an empty dependency list are skipped entirely; a task whose
dependencies are all COMPLETED is enqueued, and the AttributeError raised
inside `_enqueue_task` aborts the rest of the pass. -/
def check_deps_go (s : TaskScheduler) :
    List TaskInfo → TaskScheduler × Except PyError Unit
  | [] => (s, .ok ())
  | task :: rest =>
      if task.dependencies.isEmpty then check_deps_go s rest
      else if dep_all_completed s.task_manager task.dependencies then
        let (s, r) := s.enqueue_task task
        match r with
        | .error e => (s, .error e)
        | .ok _ => check_deps_go s rest
      else check_deps_go s rest

/-- `_check_task_dependencies`: one promotion pass over the PENDING tasks.
`scheduled_time` is never consulted here. -/
def TaskScheduler.check_task_dependencies (s : TaskScheduler) :
    TaskScheduler × Except PyError Unit :=
  check_deps_go s (s.task_manager.list_tasks (some .pending))

/-- The loop body of `_cron_loop` over the job ids at instant `now`: a due
enabled job creates one task through the registry and schedules it; the
AttributeError raised inside `_enqueue_task` propagates before the
`next_run` update line runs, so `next_run` is left unchanged and the
remaining jobs are skipped (the loop-level except swallows the error). -/
def cron_go (s : TaskScheduler) (now : Nat) :
    List String → TaskScheduler × Except PyError Unit
  | [] => (s, .ok ())
  | job_id :: rest =>
      match s.cron_jobs.lookup job_id with
      | none => cron_go s now rest
      | some job =>
          if !job.enabled then cron_go s now rest
          else if now < job.next_run then cron_go s now rest
          else
            let (m, task_id) := s.task_manager.create_task job.name job.task_type
              job.params .normal none none 3 [] none
            let s := { s with task_manager := m }
            let (s, r) := s.schedule_task task_id none
            match r with
            | .error e => (s, .error e)
            | .ok _ =>
                let job := { job with next_run := now + job.interval }
                let s := { s with cron_jobs := dictSet s.cron_jobs job_id job }
                cron_go s now rest

/-- One tick of the recurring loop at instant `now`. -/
def TaskScheduler.cron_tick (s : TaskScheduler) (now : Nat) :
    TaskScheduler × Except PyError Unit :=
  cron_go s now (s.cron_jobs.map (·.1))

/-- Lexicographic comparison of heap entries by `(priority_value, instant)`,
exactly the tuple comparison Python's heap performs (the third component is
never compared because enqueue instants are strictly increasing). -/
def entryLE (a b : QueueEntry) : Bool :=
  decide (a.pv < b.pv) || (decide (a.pv = b.pv) && decide (a.ts ≤ b.ts))

/-- Strict lexicographic comparison of heap entries. -/
def entryLT (a b : QueueEntry) : Bool :=
  decide (a.pv < b.pv) || (decide (a.pv = b.pv) && decide (a.ts < b.ts))

/-- The smallest heap entry — the one `PriorityQueue.get` pops. -/
def queueMin : List QueueEntry → Option QueueEntry
  | [] => none
  | e :: es =>
      match queueMin es with
      | none => some e
      | some m => if entryLE e m then some e else some m

/-- `_dequeue_task`: pop the smallest entry; an empty queue returns None
(the `Empty` exception from the timed get is swallowed). -/
def TaskScheduler.dequeue_task (s : TaskScheduler) :
    TaskScheduler × Option TaskInfo :=
  match queueMin s.priority_queue with
  | none => (s, none)
  | some e => ({ s with priority_queue := s.priority_queue.erase e }, some e.task)

/-- Fuel-indexed repeated popping of the smallest entry. -/
def drainAux : Nat → List QueueEntry → List QueueEntry
  | 0, _ => []
  | fuel + 1, l =>
      match queueMin l with
      | none => []
      | some m => m :: drainAux fuel (l.erase m)

/-- The dispatch order of a queue state: the sequence of entries successive
`_dequeue_task` calls pop until the queue is empty. -/
def drainQueue (l : List QueueEntry) : List QueueEntry :=
  drainAux l.length l

/-- The except arm of `_execute_task`: mark the task FAILED with the error
text, then — reading the registry record the popped object aliases — retry
when the retry budget allows. -/
def TaskScheduler.handle_task_failure (s : TaskScheduler) (task : TaskInfo)
    (e : PyError) : TaskScheduler × Except PyError Unit :=
  let (m, r) := s.task_manager.update_task_status task.task_id .failed none
    (some e.message)
  let s := { s with task_manager := m }
  match r with
  | .error e2 => (s, .error e2)
  | .ok _ =>
      match s.task_manager.get_task task.task_id with
      | none => (s, .ok ())
      | some cur =>
          if cur.retry_count < cur.max_retries then
            let (m, _) := s.task_manager.retry_task task.task_id
            ({ s with task_manager := m }, .ok ())
          else (s, .ok ())

/-- `_execute_task`: mark RUNNING, run the executor, mark COMPLETED on
success; any raised error flows to the except arm, which marks FAILED and
conditionally retries.  When no `TaskExecutor` is attached, the fallback
`get_executor` lookup keys the string-keyed registry with the `TaskType` enum
member, which never matches, so a `TaskError` is raised and handled by the
same except arm. -/
def TaskScheduler.execute_task (s : TaskScheduler) (task : TaskInfo) :
    TaskScheduler × Except PyError Unit :=
  let (m, r1) := s.task_manager.update_task_status task.task_id .running none none
  let s := { s with task_manager := m }
  match r1 with
  | .error e => s.handle_task_failure task e
  | .ok _ =>
      match s.task_executor with
      | some ex =>
          let (ex, r) := ex.execute task
          let s := { s with task_executor := some ex }
          match r with
          | .ok v =>
              let (m, r2) := s.task_manager.update_task_status task.task_id
                .completed (some v) none
              let s := { s with task_manager := m }
              match r2 with
              | .ok _ => (s, .ok ())
              | .error e => s.handle_task_failure task e
          | .error e => s.handle_task_failure task e
      | none =>
          s.handle_task_failure task
            (.taskError ("No executor found for task type: " ++ task.task_type.value))

/-- A dependency id that blocks dispatch: it resolves to a task whose status
is not COMPLETED (the code also blocks on a missing dependency, but the claim
under examination speaks of a present, not-Completed dependency). -/
def dep_incomplete (m : TaskManager) (d : String) : Bool :=
  match m.get_task d with
  | some dt => dt.status != .completed
  | none => false

/-- Well-formedness of the dispatcher queue: every entry carries the heap key
`_enqueue_task` computed for its task.  `enqueue_task` only ever pushes such
entries. -/
def QueueWF (s : TaskScheduler) : Prop :=
  ∀ e ∈ s.priority_queue, e.pv = priority_value e.task.priority

/-- Whether an executor outcome is the dedicated timeout error type. -/
def resultIsTimeoutError : Except PyError PyVal → Bool
  | .error (.taskTimeoutError _ _) => true
  | _ => false

/-- A registry with no tasks. -/
def emptyManager : TaskManager :=
  { tasks := [], task_results := [], task_queue := [], running_tasks := [],
    executors := [], uuid_seed := 0 }

/-- A freshly started scheduler over a given registry and executor. -/
def mkScheduler (m : TaskManager) (ex : Option TaskExecutor) : TaskScheduler :=
  { task_manager := m, task_executor := ex, priority_queue := [], clock := 0,
    scheduled_tasks := [], cron_jobs := [] }

/-- The metadata `create_task` writes for a plain task of the given type
string. -/
def defaultMeta (tt : String) : Metadata :=
  { task_type := tt, params := [], scheduled_time := none, timeout := none,
    wake_game := none }

/-- Shorthand for building concrete `TaskInfo` records in test scenarios. -/
def mkTask (id name : String) (tt : TaskType) (st : TaskStatus)
    (p : TaskPriority) (retry_count max_retries : Nat) (deps : List String)
    (md : Metadata) : TaskInfo :=
  { task_id := id, task_name := name, task_type := tt, status := st,
    priority := p, retry_count := retry_count, max_retries := max_retries,
    error_message := none, result := none, metadata := md,
    dependencies := deps }

/-- Scenario task: `a` is PENDING and depends on `b`. -/
def tA : TaskInfo := mkTask "a" "A" .custom .pending .normal 0 3 ["b"] (defaultMeta "custom")

/-- Scenario task: `b`, still PENDING (dependency of `a` unresolved). -/
def tB_pending : TaskInfo := mkTask "b" "B" .custom .pending .normal 0 3 [] (defaultMeta "custom")

/-- Scenario task: `b`, COMPLETED (dependency of `a` resolved). -/
def tB_completed : TaskInfo := mkTask "b" "B" .custom .completed .normal 0 3 [] (defaultMeta "custom")

/-- Scenario task: `c`, PENDING with an empty dependency list. -/
def tC_nodeps : TaskInfo := mkTask "c" "C" .custom .pending .normal 0 3 [] (defaultMeta "custom")

/-- Registry for the dependency-gating counterexample: `a` depends on the
still-PENDING `b`. -/
def mC1 : TaskManager := { emptyManager with tasks := [("a", tA), ("b", tB_pending)] }

/-- Scheduler over `mC1`. -/
def sC1 : TaskScheduler := mkScheduler mC1 none

/-- Scheduler over `mC1` with the dependency-blocked task `a` registered in
`_scheduled_tasks`, due at instant 5. -/
def sC1s : TaskScheduler :=
  { mkScheduler mC1 none with scheduled_tasks := [("a", 5)] }

/-- Registry for the promotion-pass scenario: `a` depends on the COMPLETED
`b`; `c` is PENDING with no dependencies. -/
def mC3 : TaskManager :=
  { emptyManager with tasks := [("a", tA), ("b", tB_completed), ("c", tC_nodeps)] }

/-- Scheduler over `mC3`. -/
def sC3 : TaskScheduler := mkScheduler mC3 none

/-- Recurring job for the cron scenario: due since instant 0, interval 5. -/
def jobC4 : CronJob :=
  { name := "r", task_type := "custom", interval := 5, params := [],
    next_run := 0, enabled := true }

/-- Scheduler with the single recurring job `j`. -/
def sC4 : TaskScheduler :=
  { mkScheduler emptyManager none with cron_jobs := [("j", jobC4)] }

/-- Scenario task for retry: FAILED with budget left. -/
def tC5 : TaskInfo := mkTask "t5" "T5" .custom .failed .normal 0 3 [] (defaultMeta "custom")

/-- Registry holding `tC5`. -/
def mC5 : TaskManager := { emptyManager with tasks := [("t5", tC5)] }

/-- Scenario tasks of each priority for the dispatch-order scenarios. -/
def tHigh : TaskInfo := mkTask "h" "H" .custom .pending .high 0 3 [] (defaultMeta "custom")

/-- A LOW-priority scenario task. -/
def tLow : TaskInfo := mkTask "l" "L" .custom .pending .low 0 3 [] (defaultMeta "custom")

/-- A NORMAL-priority scenario task, enqueued first. -/
def tNormal1 : TaskInfo := mkTask "n1" "N1" .custom .pending .normal 0 3 [] (defaultMeta "custom")

/-- A NORMAL-priority scenario task, enqueued second. -/
def tNormal2 : TaskInfo := mkTask "n2" "N2" .custom .pending .normal 0 3 [] (defaultMeta "custom")

/-- An URGENT-priority scenario task. -/
def tUrgent : TaskInfo := mkTask "u" "U" .custom .pending .urgent 0 3 [] (defaultMeta "custom")

/-- Heap entry for `tLow` at instant 0. -/
def eLow : QueueEntry := ⟨priority_value .low, 0, tLow⟩

/-- Heap entry for `tHigh` at instant 1. -/
def eHigh : QueueEntry := ⟨priority_value .high, 1, tHigh⟩

/-- Heap entry for `tNormal1` at instant 2. -/
def eN1 : QueueEntry := ⟨priority_value .normal, 2, tNormal1⟩

/-- Heap entry for `tNormal2` at instant 3. -/
def eN2 : QueueEntry := ⟨priority_value .normal, 3, tNormal2⟩

/-- Queue state for the priority/FIFO scenario. -/
def sC2 : TaskScheduler :=
  { mkScheduler emptyManager none with
      priority_queue := [eLow, eHigh, eN1, eN2], clock := 4 }

/-- Heap entry for `tUrgent` at instant 0 (enqueued before the HIGH task). -/
def eUrgent : QueueEntry := ⟨priority_value .urgent, 0, tUrgent⟩

/-- Heap entry for `tHigh` at instant 1, co-present with the URGENT entry. -/
def eHighLate : QueueEntry := ⟨priority_value .high, 1, tHigh⟩

/-- Queue holding an URGENT entry and a later HIGH entry. -/
def qC7 : List QueueEntry := [eUrgent, eHighLate]

/-- Scheduler whose queue is `qC7`. -/
def sC7 : TaskScheduler :=
  { mkScheduler emptyManager none with priority_queue := qC7, clock := 2 }

/-- An executor with no registered handlers at all. -/
def exEmpty : TaskExecutor :=
  { executors := [], execution_stats := [], game_controller := none,
    ensure_game := .ok () }

/-- Scenario task whose metadata type string `foo` has no registered handler. -/
def tC8 : TaskInfo := mkTask "t8" "T8" .custom .pending .normal 0 3 [] (defaultMeta "foo")

/-- Scheduler holding `tC8` in its registry, executing through `exEmpty`. -/
def sC8 : TaskScheduler :=
  mkScheduler { emptyManager with tasks := [("t8", tC8)] } (some exEmpty)

/-- A handler that needs 5 seconds. -/
def hSlow : Handler := { duration := 5, outcome := .ok (.pyBool true) }

/-- An executor with `hSlow` registered under type `slow`. -/
def exC9 : TaskExecutor :=
  { executors := [("slow", hSlow)], execution_stats := [], game_controller := none,
    ensure_game := .ok () }

/-- Metadata of the timeout scenario task: type `slow`, timeout 1 second, game
wake disabled by the caller. -/
def mdC9 : Metadata :=
  { task_type := "slow", params := [], scheduled_time := none,
    timeout := some 1, wake_game := some false }

/-- Scenario task racing `hSlow` against a 1-second timeout. -/
def tC9 : TaskInfo := mkTask "t9" "T9" .custom .pending .normal 0 3 [] mdC9

/-- The record `create_task` stores for name `n`, type string `slow` and all
defaults, starting from the empty registry. -/
def tSlowCreated : TaskInfo :=
  mkTask "task-0" "n" .custom .pending .normal 0 3 [] (defaultMeta "slow")

theorem lookup_dictSet {α : Type} (d : List (String × α)) (k : String) (v : α) :
    (dictSet d k v).lookup k = some v := by
  induction d with
  | nil => simp [dictSet, List.lookup]
  | cons p rest ih =>
      by_cases h : p.1 = k
      · simp [dictSet, h, List.lookup]
      · have h1 : (p.1 == k) = false := beq_eq_false_iff_ne.mpr h
        have h2 : (k == p.1) = false := beq_eq_false_iff_ne.mpr (fun hh => h hh.symm)
        simp [dictSet, h1, List.lookup, h2, ih]

theorem lookup_dictSet_ne {α : Type} (d : List (String × α)) (k k' : String)
    (v : α) (h : k' ≠ k) : (dictSet d k v).lookup k' = d.lookup k' := by
  induction d with
  | nil =>
      have h2 : (k' == k) = false := beq_eq_false_iff_ne.mpr h
      simp [dictSet, List.lookup, h2]
  | cons p rest ih =>
      by_cases hp : p.1 = k
      · have hp1 : (p.1 == k) = true := beq_iff_eq.mpr hp
        have h2 : (k' == k) = false := beq_eq_false_iff_ne.mpr h
        have h3 : (k' == p.1) = false := beq_eq_false_iff_ne.mpr (by rw [hp]; exact h)
        simp [dictSet, hp1, List.lookup, h2, h3]
      · have hp1 : (p.1 == k) = false := beq_eq_false_iff_ne.mpr hp
        simp only [dictSet, hp1, Bool.false_eq_true, if_false, List.lookup]
        cases hkp : (k' == p.1) <;> simp [hkp, ih]

theorem add_to_queue_tasks (m : TaskManager) (task_id : String) :
    (m.add_to_queue task_id).tasks = m.tasks := by
  unfold TaskManager.add_to_queue
  split
  · rfl
  · split
    · rfl
    · split
      · rfl
      · split <;> rfl

theorem entryLE_refl (a : QueueEntry) : entryLE a a = true := by
  simp [entryLE]

theorem entryLE_total (a b : QueueEntry) :
    entryLE a b = true ∨ entryLE b a = true := by
  simp only [entryLE, Bool.or_eq_true, Bool.and_eq_true, decide_eq_true_eq]
  omega

theorem entryLE_trans {a b c : QueueEntry} (h1 : entryLE a b = true)
    (h2 : entryLE b c = true) : entryLE a c = true := by
  simp only [entryLE, Bool.or_eq_true, Bool.and_eq_true, decide_eq_true_eq] at *
  omega

theorem entryLT_not_le {a b : QueueEntry} (h1 : entryLT a b = true)
    (h2 : entryLE b a = true) : False := by
  simp only [entryLT, entryLE, Bool.or_eq_true, Bool.and_eq_true,
    decide_eq_true_eq] at h1 h2
  omega

theorem entryLT_irrefl (a : QueueEntry) : ¬ entryLT a a = true := by
  simp only [entryLT, Bool.or_eq_true, Bool.and_eq_true, decide_eq_true_eq]
  omega

theorem queueMin_isSome (e : QueueEntry) (es : List QueueEntry) :
    (queueMin (e :: es)).isSome = true := by
  simp only [queueMin]
  cases queueMin es with
  | none => rfl
  | some m => cases h : entryLE e m <;> simp [h]

theorem queueMin_none {l : List QueueEntry} (h : queueMin l = none) : l = [] := by
  cases l with
  | nil => rfl
  | cons e es =>
      have := queueMin_isSome e es
      rw [h] at this
      simp at this

theorem queueMin_mem {l : List QueueEntry} {m : QueueEntry}
    (h : queueMin l = some m) : m ∈ l := by
  induction l generalizing m with
  | nil => simp [queueMin] at h
  | cons e es ih =>
      simp only [queueMin] at h
      cases hq : queueMin es with
      | none =>
          rw [hq] at h
          cases h
          exact List.mem_cons_self e es
      | some m2 =>
          rw [hq] at h
          cases hle : entryLE e m2 with
          | true =>
              simp [hle] at h
              subst h
              exact List.mem_cons_self e es
          | false =>
              simp [hle] at h
              subst h
              exact List.mem_cons_of_mem e (ih hq)

theorem queueMin_le {l : List QueueEntry} {m : QueueEntry}
    (h : queueMin l = some m) : ∀ x ∈ l, entryLE m x = true := by
  induction l generalizing m with
  | nil => simp [queueMin] at h
  | cons e es ih =>
      intro x hx
      simp only [queueMin] at h
      cases hq : queueMin es with
      | none =>
          rw [hq] at h
          cases h
          have hes : es = [] := queueMin_none hq
          subst hes
          simp at hx
          subst hx
          exact entryLE_refl x
      | some m2 =>
          rw [hq] at h
          cases hle : entryLE e m2 with
          | true =>
              simp [hle] at h
              subst h
              rcases List.mem_cons.mp hx with hxe | hxes
              · subst hxe; exact entryLE_refl x
              · exact entryLE_trans hle (ih hq x hxes)
          | false =>
              simp [hle] at h
              subst h
              rcases List.mem_cons.mp hx with hxe | hxes
              · subst hxe
                rcases entryLE_total x m2 with hc | hc
                · rw [hle] at hc; cases hc
                · exact hc
              · exact ih hq x hxes

theorem drainAux_eq_cons {fuel : Nat} {l : List QueueEntry} {m : QueueEntry}
    (hq : queueMin l = some m) :
    drainAux (fuel + 1) l = m :: drainAux fuel (l.erase m) := by
  simp [drainAux, hq]

theorem drainAux_perm : ∀ (fuel : Nat) (l : List QueueEntry),
    l.length ≤ fuel → (drainAux fuel l).Perm l
  | 0, l, h => by
      have hl : l = [] := List.eq_nil_of_length_eq_zero (Nat.le_zero.mp h)
      subst hl
      simp [drainAux]
  | fuel + 1, l, h => by
      cases hq : queueMin l with
      | none =>
          have hl := queueMin_none hq
          subst hl
          simp [drainAux, queueMin]
      | some m =>
          have hm := queueMin_mem hq
          have hlen : (l.erase m).length ≤ fuel := by
            have := List.length_erase_add_one hm
            omega
          have ih := drainAux_perm fuel (l.erase m) hlen
          rw [drainAux_eq_cons hq]
          exact (ih.cons m).trans (List.perm_cons_erase hm).symm

theorem drainAux_pairwise : ∀ (fuel : Nat) (l : List QueueEntry),
    l.length ≤ fuel →
    (drainAux fuel l).Pairwise (fun a b => entryLE a b = true)
  | 0, _, _ => by simp [drainAux]
  | fuel + 1, l, h => by
      cases hq : queueMin l with
      | none => simp [drainAux, hq, List.Pairwise.nil]
      | some m =>
          have hm := queueMin_mem hq
          have hlen : (l.erase m).length ≤ fuel := by
            have := List.length_erase_add_one hm
            omega
          have hperm := drainAux_perm fuel (l.erase m) hlen
          rw [drainAux_eq_cons hq]
          refine List.Pairwise.cons ?_ (drainAux_pairwise fuel (l.erase m) hlen)
          intro x hx
          have hxl : x ∈ l := List.mem_of_mem_erase (hperm.mem_iff.mp hx)
          exact queueMin_le hq x hxl

theorem drainQueue_perm (q : List QueueEntry) : (drainQueue q).Perm q :=
  drainAux_perm q.length q le_rfl

theorem drainQueue_pairwise (q : List QueueEntry) :
    (drainQueue q).Pairwise (fun a b => entryLE a b = true) :=
  drainAux_pairwise q.length q le_rfl

/-- In the dispatch order of any queue state, a lexicographically smaller
entry is popped strictly earlier. -/
theorem drain_before {q : List QueueEntry} {a b : QueueEntry}
    (ha : a ∈ q) (hb : b ∈ q) (hab : entryLT a b = true) :
    (drainQueue q).indexOf a < (drainQueue q).indexOf b := by
  have hperm := drainQueue_perm q
  have hpw := drainQueue_pairwise q
  have had : a ∈ drainQueue q := hperm.mem_iff.mpr ha
  have hbd : b ∈ drainQueue q := hperm.mem_iff.mpr hb
  have hia : (drainQueue q).indexOf a < (drainQueue q).length :=
    List.indexOf_lt_length.mpr had
  have hib : (drainQueue q).indexOf b < (drainQueue q).length :=
    List.indexOf_lt_length.mpr hbd
  by_contra hcon
  push_neg at hcon
  rcases Nat.lt_or_ge ((drainQueue q).indexOf b) ((drainQueue q).indexOf a) with hlt | hge
  · have hR := List.pairwise_iff_getElem.mp hpw _ _ hib hia hlt
    have hga : (drainQueue q)[(drainQueue q).indexOf a] = a :=
      List.getElem_indexOf hia
    have hgb : (drainQueue q)[(drainQueue q).indexOf b] = b :=
      List.getElem_indexOf hib
    rw [hga, hgb] at hR
    exact entryLT_not_le hab hR
  · have heq : (drainQueue q).indexOf a = (drainQueue q).indexOf b := by omega
    have hga : (drainQueue q).get ⟨(drainQueue q).indexOf a, hia⟩ = a :=
      List.indexOf_get hia
    have hgb : (drainQueue q).get ⟨(drainQueue q).indexOf b, hib⟩ = b :=
      List.indexOf_get hib
    have hab' : a = b := by
      rw [← hga, ← hgb]
      congr 1
      exact Fin.ext heq
    subst hab'
    exact entryLT_irrefl a hab

theorem enqueue_task_eq (s : TaskScheduler) (t : TaskInfo) :
    s.enqueue_task t =
      ({ s with
          priority_queue := s.priority_queue ++
            [QueueEntry.mk (priority_value t.priority) s.clock t]
          clock := s.clock + 1 },
       .error (.attributeError "QUEUED")) := rfl

/-- `_dequeue_task` pops exactly the head of the dispatch order `drainQueue`,
and the remaining dispatch order is that of the remaining queue. -/
theorem dequeue_task_drain (s : TaskScheduler) (e : QueueEntry)
    (h : queueMin s.priority_queue = some e) :
    (s.dequeue_task).2 = some e.task ∧
    drainQueue s.priority_queue = e :: drainQueue (s.dequeue_task).1.priority_queue := by
  constructor
  · simp [TaskScheduler.dequeue_task, h]
  · have hm := queueMin_mem h
    have hlen := List.length_erase_add_one hm
    have h1 : drainQueue s.priority_queue
        = drainAux ((s.priority_queue.erase e).length + 1) s.priority_queue := by
      unfold drainQueue
      rw [hlen]
    rw [h1, drainAux_eq_cons h]
    simp [TaskScheduler.dequeue_task, h, drainQueue]

theorem dep_all_completed_spec {m : TaskManager} {deps : List String}
    (hall : dep_all_completed m deps = true) {d : String} (hd : d ∈ deps) :
    dep_incomplete m d = false := by
  have hone := List.all_eq_true.mp hall d hd
  unfold dep_incomplete
  cases hg : m.get_task d with
  | none => rfl
  | some dt =>
      rw [hg] at hone
      simp only at hone
      simp [bne, hone]

/-- One dependency pass only ever adds entries for tasks from the PENDING
snapshot whose dependency list passed the all-COMPLETED test against the
registry at the start of the pass. -/
theorem check_deps_go_queue (s : TaskScheduler) (ts : List TaskInfo) :
    ∀ e ∈ (check_deps_go s ts).1.priority_queue,
      e ∈ s.priority_queue ∨
      (e.task ∈ ts ∧ dep_all_completed s.task_manager e.task.dependencies = true) := by
  induction ts generalizing s with
  | nil => intro e he; exact .inl he
  | cons t rest ih =>
      intro e he
      by_cases hemp : t.dependencies.isEmpty
      · rw [check_deps_go, if_pos hemp] at he
        rcases ih s e he with h | ⟨h1, h2⟩
        · exact .inl h
        · exact .inr ⟨List.mem_cons_of_mem _ h1, h2⟩
      · by_cases hall : dep_all_completed s.task_manager t.dependencies = true
        · rw [check_deps_go, if_neg hemp, if_pos hall] at he
          simp only [enqueue_task_eq] at he
          rcases List.mem_append.mp he with h | h
          · exact .inl h
          · simp only [List.mem_singleton] at h
            subst h
            exact .inr ⟨List.mem_cons_self t rest, hall⟩
        · rw [check_deps_go, if_neg hemp, if_neg hall] at he
          rcases ih s e he with h | ⟨h1, h2⟩
          · exact .inl h
          · exact .inr ⟨List.mem_cons_of_mem _ h1, h2⟩

theorem update_task_status_spec (m : TaskManager) (task_id : String)
    (t : TaskInfo) (st : TaskStatus) (result : Option PyVal)
    (error : Option String) (hget : m.tasks.lookup task_id = some t) :
    (m.update_task_status task_id st result error).1.tasks
        = dictSet m.tasks task_id { t with status := st }
    ∧ (m.update_task_status task_id st result error).2 = .ok () := by
  unfold TaskManager.update_task_status
  rw [hget]
  cases h : m.task_results.lookup task_id <;> simp [h]

/-- C2: in any well-formed dispatcher queue state, for entries A and B both
present, if A's task has priority High and B's has priority Low then A is
dequeued strictly before B in the dispatch order (`drainQueue`, the sequence
of successive `_dequeue_task` pops); and if the two tasks have equal priority
and A was enqueued strictly earlier, A is dequeued no later than B. -/
theorem dispatch_priority_then_fifo (s : TaskScheduler) (hwf : QueueWF s)
    (ea eb : QueueEntry) (ha : ea ∈ s.priority_queue) (hb : eb ∈ s.priority_queue) :
    (ea.task.priority = .high ∧ eb.task.priority = .low →
       (drainQueue s.priority_queue).indexOf ea
         < (drainQueue s.priority_queue).indexOf eb)
    ∧ (ea.task.priority = eb.task.priority ∧ ea.ts < eb.ts →
       (drainQueue s.priority_queue).indexOf ea
         ≤ (drainQueue s.priority_queue).indexOf eb) := by
  constructor
  · rintro ⟨hpa, hpb⟩
    apply drain_before ha hb
    have hka := hwf ea ha
    have hkb := hwf eb hb
    rw [hpa] at hka
    rw [hpb] at hkb
    simp [entryLT, hka, hkb, priority_value]
  · rintro ⟨hp, hts⟩
    apply le_of_lt
    apply drain_before ha hb
    have hka := hwf ea ha
    have hkb := hwf eb hb
    rw [hp] at hka
    simp [entryLT, hka, hkb, hts]

theorem dispatch_priority_then_fifo_witness :
    QueueWF sC2 ∧
    (drainQueue sC2.priority_queue).indexOf eHigh
        < (drainQueue sC2.priority_queue).indexOf eLow ∧
    (drainQueue sC2.priority_queue).indexOf eN1
        ≤ (drainQueue sC2.priority_queue).indexOf eN2 :=
  ⟨by unfold QueueWF; decide,
   (dispatch_priority_then_fifo sC2 (by unfold QueueWF; decide) eHigh eLow
      (by decide) (by decide)).1 ⟨rfl, rfl⟩,
   (dispatch_priority_then_fifo sC2 (by unfold QueueWF; decide) eN1 eN2
      (by decide) (by decide)).2 ⟨rfl, by decide⟩⟩

/-- C7 counterexample: an URGENT task enqueued before a HIGH task is NOT
dequeued before it — the HIGH entry leaves the queue first, because the heap
key map in `_enqueue_task` has no URGENT key. -/
theorem urgent_not_before_high_cex :
    tUrgent.priority = .urgent ∧ tHigh.priority = .high ∧
    eUrgent ∈ qC7 ∧ eHighLate ∈ qC7 ∧ eUrgent.ts < eHighLate.ts ∧
    ¬ (drainQueue qC7).indexOf eUrgent < (drainQueue qC7).indexOf eHighLate := by
  decide

/-- C7 (amended): `TaskPriority` declares the total order Low < Normal < High
< Urgent by enum value, but the dispatch heap key map omits URGENT, which
falls to the NORMAL default key — so a HIGH task co-present in the queue with
an URGENT task is dequeued before it. -/
theorem priority_order_amended (s : TaskScheduler) (hwf : QueueWF s)
    (ea eb : QueueEntry) (ha : ea ∈ s.priority_queue) (hb : eb ∈ s.priority_queue)
    (hpa : ea.task.priority = .high) (hpb : eb.task.priority = .urgent) :
    TaskPriority.value .low < TaskPriority.value .normal ∧
    TaskPriority.value .normal < TaskPriority.value .high ∧
    TaskPriority.value .high < TaskPriority.value .urgent ∧
    priority_value .urgent = priority_value .normal ∧
    (drainQueue s.priority_queue).indexOf ea
      < (drainQueue s.priority_queue).indexOf eb := by
  refine ⟨by decide, by decide, by decide, by decide, ?_⟩
  apply drain_before ha hb
  have hka := hwf ea ha
  have hkb := hwf eb hb
  rw [hpa] at hka
  rw [hpb] at hkb
  simp [entryLT, hka, hkb, priority_value]

theorem priority_order_amended_witness :
    QueueWF sC7 ∧
    (drainQueue sC7.priority_queue).indexOf eHighLate
      < (drainQueue sC7.priority_queue).indexOf eUrgent :=
  ⟨by unfold QueueWF; decide,
   (priority_order_amended sC7 (by unfold QueueWF; decide) eHighLate eUrgent
      (by decide) (by decide) rfl rfl).2.2.2.2⟩

/-- C1 counterexample: task `a` depends on `b`, whose status is Pending (not
Completed), yet `schedule_task` without a scheduled time places `a` on the
Dispatcher's priority queue — and likewise the scheduled-time check, once
`a`'s instant (5) has passed at tick 7, places `a` on the queue. -/
theorem schedule_task_ignores_deps_cex :
    tA.dependencies = ["b"] ∧
    (mC1.get_task "b").map TaskInfo.status = some .pending ∧
    ((sC1.schedule_task "a" none).1.priority_queue.map (fun e => e.task.task_id))
      = ["a"] ∧
    sC1s.scheduled_tasks = [("a", 5)] ∧
    ((sC1s.check_scheduled_tasks 7).1.priority_queue.map (fun e => e.task.task_id))
      = ["a"] := by
  decide

/-- C1 (amended): only the dependency check guards dependencies — it never
adds a queue entry for a task one of whose dependencies is present but not
Completed; `schedule_task` without a scheduled time appends the task to the
priority queue unconditionally, and so does the scheduled-time check for the
first due scheduled id, so a task with unresolved dependencies can reach the
Dispatcher through either of those two operations. -/
theorem dependency_gating_amended (s : TaskScheduler) (t : TaskInfo)
    (hdep : ∃ d ∈ t.dependencies, dep_incomplete s.task_manager d = true) :
    (∀ e ∈ (s.check_task_dependencies).1.priority_queue,
        e.task = t → e ∈ s.priority_queue)
    ∧ (∀ task_id, s.task_manager.get_task task_id = some t →
        (s.schedule_task task_id none).1.priority_queue =
          s.priority_queue ++
            [QueueEntry.mk (priority_value t.priority) s.clock t])
    ∧ (∀ (now : Nat) (task_id : String) (rest : List String),
        (s.scheduled_tasks.filter (fun p => p.2 ≤ now)).map (·.1)
          = task_id :: rest →
        s.task_manager.get_task task_id = some t →
        (s.check_scheduled_tasks now).1.priority_queue =
          s.priority_queue ++
            [QueueEntry.mk (priority_value t.priority) s.clock t]) := by
  obtain ⟨d, hd, hinc⟩ := hdep
  refine ⟨?_, ?_, ?_⟩
  · intro e he het
    rcases check_deps_go_queue s (s.task_manager.list_tasks (some .pending)) e he
      with h | ⟨_, hall⟩
    · exact h
    · rw [het] at hall
      rw [dep_all_completed_spec hall hd] at hinc
      cases hinc
  · intro task_id hget
    simp [TaskScheduler.schedule_task, hget, enqueue_task_eq]
  · intro now task_id rest hdue hget
    simp [TaskScheduler.check_scheduled_tasks, hdue, check_scheduled_go, hget,
      enqueue_task_eq]

theorem dependency_gating_amended_witness :
    (∀ e ∈ (sC1s.check_task_dependencies).1.priority_queue,
        e.task = tA → e ∈ sC1s.priority_queue)
    ∧ (sC1s.schedule_task "a" none).1.priority_queue =
        sC1s.priority_queue ++
          [QueueEntry.mk (priority_value tA.priority) sC1s.clock tA]
    ∧ (sC1s.check_scheduled_tasks 7).1.priority_queue =
        sC1s.priority_queue ++
          [QueueEntry.mk (priority_value tA.priority) sC1s.clock tA] :=
  ⟨(dependency_gating_amended sC1s tA ⟨"b", by decide, by decide⟩).1,
   (dependency_gating_amended sC1s tA ⟨"b", by decide, by decide⟩).2.1 "a" rfl,
   (dependency_gating_amended sC1s tA ⟨"b", by decide, by decide⟩).2.2 7 "a" []
     (by decide) rfl⟩

/-- C3: at the failing input, the promotion pass pushes the dependency-ready
task `a` onto the queue but the status write to the nonexistent
`TaskStatus.QUEUED` raises AttributeError, so `a` stays Pending and the pass
aborts; the Pending task `c` with an empty dependency list is never moved at
all. -/
theorem promotion_pass_bug :
    (mC3.get_task "a").map TaskInfo.status = some .pending ∧
    (mC3.get_task "b").map TaskInfo.status = some .completed ∧
    dep_all_completed mC3 tA.dependencies = true ∧
    tC_nodeps.dependencies = [] ∧
    ((sC3.check_task_dependencies).1.task_manager.get_task "a").map TaskInfo.status
      = some .pending ∧
    (sC3.check_task_dependencies).2 = .error (.attributeError "QUEUED") ∧
    ((sC3.check_task_dependencies).1.priority_queue.map (fun e => e.task.task_id))
      = ["a"] ∧
    ((sC3.check_task_dependencies).1.task_manager.get_task "c").map TaskInfo.status
      = some .pending := by
  decide

/-- C4: at the failing input (enabled job, next_run 0, interval 5, tick at 7)
the cron tick creates exactly one task through the registry, but then
`schedule_task` raises AttributeError (no `TaskStatus.QUEUED`) before the
`next_run` update line, so `next_run` stays 0 — neither the claimed 5
(next_run + interval) nor the 12 (now + interval) the update line itself
would compute. -/
theorem cron_tick_bug :
    jobC4.enabled = true ∧ jobC4.next_run = 0 ∧ jobC4.interval = 5 ∧
    ((sC4.cron_tick 7).1.task_manager.tasks.map (fun p => p.2.task_name)) = ["r"] ∧
    ((sC4.cron_tick 7).1.cron_jobs.lookup "j").map CronJob.next_run = some 0 ∧
    (sC4.cron_tick 7).2 = .error (.attributeError "QUEUED") := by
  decide

theorem statusAttrCount_ok {st : TaskStatus} {attrName : String}
    (h : TaskStatus.attr attrName = some st) (l : List (String × TaskInfo)) :
    statusAttrCount l attrName = .ok (l.filter (fun p => p.2.status == st)).length := by
  induction l with
  | nil => simp [statusAttrCount]
  | cons p rest ih =>
      simp only [statusAttrCount, h, ih, List.filter]
      cases hc : p.2.status == st <;>
        simp [hc, Bind.bind, Except.bind, Nat.add_comm]

theorem statusAttrCount_missing {attrName : String}
    (h : TaskStatus.attr attrName = none) (p : String × TaskInfo)
    (rest : List (String × TaskInfo)) :
    statusAttrCount (p :: rest) attrName = .error (.attributeError attrName) := by
  simp [statusAttrCount, h]

/-- C6: whenever the registry holds at least one task, `get_statistics`
raises AttributeError — the `queued` comprehension compares against
`TaskStatus.QUEUED`, which is not a member of the enum — so it never returns
the claimed per-status counts; only the empty registry returns a dict, and
that dict carries no entries for the RETRYING, PAUSED or SKIPPED statuses of
the data model, which itself has no Queued status at all. -/
theorem get_statistics_queued_bug (m : TaskManager) :
    (m.tasks ≠ [] → m.get_statistics = .error (.attributeError "QUEUED"))
    ∧ (m.tasks = [] → m.get_statistics =
        .ok [("total", 0), ("pending", 0), ("queued", 0), ("running", 0),
             ("completed", 0), ("failed", 0), ("cancelled", 0),
             ("queue_length", m.task_queue.length),
             ("running_threads", m.running_tasks.length)]) := by
  constructor
  · intro hne
    match hts : m.tasks with
    | [] => exact absurd hts hne
    | p :: rest =>
        have hp := @statusAttrCount_ok TaskStatus.pending "PENDING" rfl (p :: rest)
        have hq := @statusAttrCount_missing "QUEUED" rfl p rest
        simp [TaskManager.get_statistics, hts, hp, hq, Bind.bind, Except.bind]
  · intro hts
    simp [TaskManager.get_statistics, hts, statusAttrCount, Bind.bind, Except.bind]

theorem get_statistics_queued_bug_witness :
    mC5.tasks ≠ [] ∧
    mC5.get_statistics = .error (.attributeError "QUEUED") ∧
    emptyManager.tasks = [] ∧
    emptyManager.get_statistics =
      .ok [("total", 0), ("pending", 0), ("queued", 0), ("running", 0),
           ("completed", 0), ("failed", 0), ("cancelled", 0),
           ("queue_length", 0), ("running_threads", 0)] :=
  ⟨by decide, (get_statistics_queued_bug mC5).1 (by decide), rfl,
   (get_statistics_queued_bug emptyManager).2 rfl⟩

/-- C5: for every id present in the registry, `retry_task` returns True
exactly when the task's status is Failed and `retry_count < max_retries`; in
that case it increments `retry_count` by one and resets the status to
Pending; in every other case it returns False and leaves the registry
unchanged. -/
theorem retry_task_spec (m : TaskManager) (task_id : String) (t : TaskInfo)
    (hget : m.get_task task_id = some t) :
    ((m.retry_task task_id).2 = .ok true ↔
        t.status = .failed ∧ t.retry_count < t.max_retries)
    ∧ (t.status = .failed ∧ t.retry_count < t.max_retries →
        (m.retry_task task_id).1.get_task task_id =
          some { t with retry_count := t.retry_count + 1, status := .pending })
    ∧ (¬(t.status = .failed ∧ t.retry_count < t.max_retries) →
        (m.retry_task task_id).1 = m ∧ (m.retry_task task_id).2 = .ok false) := by
  unfold TaskManager.get_task at hget
  unfold TaskManager.retry_task
  rw [hget]
  by_cases hst : t.status = .failed
  · by_cases hrc : t.retry_count < t.max_retries
    · have hge : ¬ t.retry_count ≥ t.max_retries := by omega
      simp [hst, hrc, hge, TaskManager.get_task, add_to_queue_tasks, lookup_dictSet]
    · have hge : t.retry_count ≥ t.max_retries := by omega
      simp [hst, hge, hrc]
  · simp [hst]

theorem retry_task_spec_witness :
    tC5.status = .failed ∧ tC5.retry_count < tC5.max_retries ∧
    (mC5.retry_task "t5").2 = .ok true ∧
    (mC5.retry_task "t5").1.get_task "t5" =
      some { tC5 with retry_count := tC5.retry_count + 1, status := .pending } :=
  ⟨by decide, by decide,
   (retry_task_spec mC5 "t5" tC5 rfl).1.mpr ⟨by decide, by decide⟩,
   (retry_task_spec mC5 "t5" tC5 rfl).2.1 ⟨by decide, by decide⟩⟩

/-- The except arm of `_execute_task` marks the registry record FAILED and
then retries exactly when the retry budget allows, leaving the record Pending
with the count bumped; with the budget exhausted the record stays FAILED. -/
theorem handle_task_failure_spec (s : TaskScheduler) (task : TaskInfo)
    (e : PyError) (cur : TaskInfo)
    (hlk : s.task_manager.tasks.lookup task.task_id = some cur) :
    (cur.retry_count < cur.max_retries →
        (s.handle_task_failure task e).1.task_manager.get_task task.task_id =
          some { cur with status := .pending, retry_count := cur.retry_count + 1 })
    ∧ (cur.max_retries ≤ cur.retry_count →
        (s.handle_task_failure task e).1.task_manager.get_task task.task_id =
          some { cur with status := .failed }) := by
  have h2 := update_task_status_spec s.task_manager task.task_id cur .failed none
    (some e.message) hlk
  set M2 := (s.task_manager.update_task_status task.task_id .failed none
    (some e.message)).1 with hM2
  have e2 : s.task_manager.update_task_status task.task_id .failed none (some e.message)
      = (M2, .ok ()) :=
    Prod.ext hM2.symm h2.2
  have hlk2 : M2.tasks.lookup task.task_id = some { cur with status := .failed } := by
    rw [h2.1]
    exact lookup_dictSet _ _ _
  constructor
  · intro hrc
    simp only [TaskScheduler.handle_task_failure, e2, TaskManager.get_task, hlk2,
      TaskManager.retry_task]
    simp [hrc, Nat.not_le.mpr hrc, lookup_dictSet, add_to_queue_tasks]
  · intro hrc
    simp only [TaskScheduler.handle_task_failure, e2, TaskManager.get_task, hlk2,
      TaskManager.retry_task]
    simp [Nat.not_lt.mpr hrc, hlk2]

/-- C8 counterexample: task type `foo` has no registered handler and the task
has retry budget left (0 < 3); after `_execute_task` the registry record is
Pending with retry_count 1 — a retry WAS attempted, so the no-handler failure
is not an immediate non-retryable Failed. -/
theorem no_handler_retried_cex :
    exEmpty.resolve tC8 = none ∧
    tC8.retry_count = 0 ∧ tC8.max_retries = 3 ∧
    ((sC8.execute_task tC8).1.task_manager.get_task "t8").map TaskInfo.status
      = some .pending ∧
    ((sC8.execute_task tC8).1.task_manager.get_task "t8").map TaskInfo.retry_count
      = some 1 := by
  decide

/-- C8 (amended): with no handler registered for the task's type string, the
Executor raises the generic `TaskExecutionError` (there is no dedicated
no-handler error class), the Scheduler marks the task Failed, and then —
exactly as for any other failure — retries it whenever
`retry_count < max_retries`, leaving the record Pending with the count
bumped; only with the budget exhausted does the record remain Failed. -/
theorem no_handler_amended (s : TaskScheduler) (ex : TaskExecutor) (t : TaskInfo)
    (hex : s.task_executor = some ex)
    (hno : ex.resolve t = none)
    (hget : s.task_manager.get_task t.task_id = some t) :
    (ex.execute t).2 = .error (.taskExecutionError
        ("Task execution failed: No executor for task type: " ++ t.metadata.task_type))
    ∧ (t.retry_count < t.max_retries →
        (s.execute_task t).1.task_manager.get_task t.task_id =
          some { t with status := .pending, retry_count := t.retry_count + 1 })
    ∧ (t.max_retries ≤ t.retry_count →
        (s.execute_task t).1.task_manager.get_task t.task_id =
          some { t with status := .failed }) := by
  have hlk : s.task_manager.tasks.lookup t.task_id = some t := hget
  have h1 := update_task_status_spec s.task_manager t.task_id t .running none none hlk
  set M1 := (s.task_manager.update_task_status t.task_id .running none none).1 with hM1
  have e1 : s.task_manager.update_task_status t.task_id .running none none
      = (M1, .ok ()) :=
    Prod.ext hM1.symm h1.2
  have hlk1 : M1.tasks.lookup t.task_id = some { t with status := .running } := by
    rw [h1.1]
    exact lookup_dictSet _ _ _
  have e2 : ex.execute t
      = (ex.update_stats t.metadata.task_type false 0,
         .error (.taskExecutionError
           ("Task execution failed: No executor for task type: "
             ++ t.metadata.task_type))) := by
    simp [TaskExecutor.execute, hno]
  refine ⟨by rw [e2], ?_, ?_⟩
  · intro hrc
    simp only [TaskScheduler.execute_task, e1, hex, e2]
    exact (handle_task_failure_spec _ t _ { t with status := .running } hlk1).1 hrc
  · intro hrc
    simp only [TaskScheduler.execute_task, e1, hex, e2]
    exact (handle_task_failure_spec _ t _ { t with status := .running } hlk1).2 hrc

theorem no_handler_amended_witness :
    sC8.task_executor = some exEmpty ∧
    exEmpty.resolve tC8 = none ∧
    (exEmpty.execute tC8).2 = .error (.taskExecutionError
      ("Task execution failed: No executor for task type: " ++ tC8.metadata.task_type)) ∧
    (sC8.execute_task tC8).1.task_manager.get_task tC8.task_id =
      some { tC8 with status := .pending, retry_count := tC8.retry_count + 1 } :=
  ⟨rfl, rfl,
   (no_handler_amended sC8 exEmpty tC8 rfl rfl rfl).1,
   (no_handler_amended sC8 exEmpty tC8 rfl rfl rfl).2.1 (by decide)⟩

/-- C9 counterexample: the handler for type `slow` needs 5 seconds against a
1-second timeout; `execute` raises the generic `TaskExecutionError` — not the
dedicated `TaskTimeoutError` — while recording the invocation as a failure. -/
theorem timeout_error_type_cex :
    hSlow.duration = 5 ∧ tC9.metadata.timeout = some 1 ∧
    (exC9.execute tC9).2 = .error (.taskExecutionError
      "Task execution failed: Task timeout after 1 seconds") ∧
    resultIsTimeoutError (exC9.execute tC9).2 = false ∧
    ((exC9.execute tC9).1.execution_stats.lookup "slow").map ExecStats.failed
      = some 1 := by
  decide

/-- C9 (amended): for every task with a configured timeout whose handler
does not complete within it, the Executor raises `TaskExecutionError` (the
dedicated `TaskTimeoutError` class exists in the sources but is never
raised), and it reports the invocation as a failure in the per-type
statistics. -/
theorem timeout_amended (ex : TaskExecutor) (t : TaskInfo) (h : Handler)
    (tmo : Nat) (hreg : ex.resolve t = some h)
    (hto : t.metadata.timeout = some tmo)
    (hslow : tmo < h.duration)
    (hw : shouldWake t.metadata.task_type t.metadata = false ∨
          ex.ensure_game = .ok ()) :
    (ex.execute t).2 = .error (.taskExecutionError
        ("Task execution failed: " ++ ("Task timeout after " ++ toString tmo ++ " seconds")))
    ∧ ((ex.execute t).1.execution_stats.lookup t.metadata.task_type).map ExecStats.failed
        = some (((ex.execution_stats.lookup t.metadata.task_type).getD
            { total := 0, success := 0, failed := 0, total_duration := 0 }).failed + 1) := by
  have hrun : ex.execute t = ex.run_handler t.metadata.task_type h t.metadata.timeout := by
    rcases hw with hwF | hwOk
    · simp [TaskExecutor.execute, hreg, hwF]
    · by_cases hsw : shouldWake t.metadata.task_type t.metadata
      · simp [TaskExecutor.execute, hreg, hsw, hwOk]
      · simp [TaskExecutor.execute, hreg, hsw]
  have hrh : ex.run_handler t.metadata.task_type h t.metadata.timeout
      = (ex.update_stats t.metadata.task_type false (min h.duration tmo),
         .error (.taskExecutionError ("Task execution failed: "
           ++ ("Task timeout after " ++ toString tmo ++ " seconds")))) := by
    simp [TaskExecutor.run_handler, hto, TaskExecutor.execute_with_timeout, hslow,
      PyError.message]
  rw [hrun, hrh]
  refine ⟨rfl, ?_⟩
  simp [TaskExecutor.update_stats, lookup_dictSet]

theorem timeout_amended_witness :
    exC9.resolve tC9 = some hSlow ∧
    tC9.metadata.timeout = some 1 ∧ 1 < hSlow.duration ∧
    (exC9.execute tC9).2 = .error (.taskExecutionError
        ("Task execution failed: " ++ ("Task timeout after " ++ toString 1 ++ " seconds")))
    ∧ ((exC9.execute tC9).1.execution_stats.lookup tC9.metadata.task_type).map ExecStats.failed
        = some (((exC9.execution_stats.lookup tC9.metadata.task_type).getD
            { total := 0, success := 0, failed := 0, total_duration := 0 }).failed + 1) :=
  ⟨rfl, rfl, by decide,
   (timeout_amended exC9 tC9 hSlow 1 rfl rfl (by decide) (.inl (by decide))).1,
   (timeout_amended exC9 tC9 hSlow 1 rfl rfl (by decide) (.inl (by decide))).2⟩

/-- C10: `create_task` accepts any task_type string without raising (it is a
total function); a string matching no `TaskType` enum value is stored with
enum type CUSTOM while the original string is preserved in the metadata, and
Executor handler resolution keys its registry lookup by that original string,
so dispatch works for type tags outside the built-in enum. -/
theorem create_task_custom_type (m : TaskManager) (name s : String)
    (params : List (String × String)) (priority : TaskPriority)
    (scheduled_time timeout : Option Nat) (max_retries : Nat)
    (deps : List String) (wake : Option Bool) (m2 : TaskManager) (new_id : String)
    (hs : ∀ tt ∈ TaskType.values, TaskType.value tt ≠ s)
    (hc : m.create_task name s params priority scheduled_time timeout max_retries
            deps wake = (m2, new_id)) :
    (m2.get_task new_id).map TaskInfo.task_type = some .custom
    ∧ (m2.get_task new_id).map (fun ti => ti.metadata.task_type) = some s
    ∧ ∀ (ex : TaskExecutor) (ti : TaskInfo), m2.get_task new_id = some ti →
        ex.resolve ti = ex.executors.lookup s := by
  have hfind : TaskType.values.find? (fun tt => tt.value == s) = none := by
    apply List.find?_eq_none.mpr
    intro tt htt
    simpa using hs tt htt
  have hm2 : m2 = (m.create_task name s params priority scheduled_time timeout
      max_retries deps wake).1 := by rw [hc]
  have hid : new_id = (m.create_task name s params priority scheduled_time timeout
      max_retries deps wake).2 := by rw [hc]
  subst hm2
  subst hid
  refine ⟨?_, ?_, ?_⟩
  · simp [TaskManager.create_task, hfind, TaskManager.get_task, add_to_queue_tasks,
      lookup_dictSet]
  · simp [TaskManager.create_task, hfind, TaskManager.get_task, add_to_queue_tasks,
      lookup_dictSet]
  · intro ex ti hti
    simp [TaskManager.create_task, hfind, TaskManager.get_task, add_to_queue_tasks,
      lookup_dictSet] at hti
    subst hti
    simp [TaskExecutor.resolve]

theorem create_task_custom_type_witness :
    ((emptyManager.create_task "n" "slow" [] .normal none none 3 [] none).1.get_task
        (emptyManager.create_task "n" "slow" [] .normal none none 3 [] none).2).map
        TaskInfo.task_type = some .custom
    ∧ ((emptyManager.create_task "n" "slow" [] .normal none none 3 [] none).1.get_task
        (emptyManager.create_task "n" "slow" [] .normal none none 3 [] none).2).map
        (fun ti => ti.metadata.task_type) = some "slow"
    ∧ exC9.resolve tSlowCreated = exC9.executors.lookup "slow" :=
  ⟨(create_task_custom_type emptyManager "n" "slow" [] .normal none none 3 [] none
      _ _ (by decide) rfl).1,
   (create_task_custom_type emptyManager "n" "slow" [] .normal none none 3 [] none
      _ _ (by decide) rfl).2.1,
   (create_task_custom_type emptyManager "n" "slow" [] .normal none none 3 [] none
      _ _ (by decide) rfl).2.2 exC9 tSlowCreated (by decide)⟩

end AFK2
